import Mathlib

/-!
Verification development for the Marvel-predictor chatbot repository.

The repository is a set of Python scripts (`advanceChatBot.py`,
`bedrockChatbot.py`, `revised_bedrock.py`, and two smaller scripts) that
orchestrate chat-completion calls: building a role-tagged message history,
formatting a mode-specific system instruction with a token budget,
dispatching the call (with retry/backoff in the refined variant),
normalizing response shapes, and appending results to a JSON log.

This file is a shallow embedding of that logic.  Remote calls, wall-clock
time and random jitter are modelled as explicit oracle parameters; Python
exceptions are modelled with `Except`/`Option`; JSON values are modelled by
the `Json` inductive below.
-/

/-- JSON value, as produced by Python's `json.loads`.  Numbers are modelled
as integers (the repository's payloads only carry integral token counts and
rounded timings; the exact numeric representation is irrelevant to every
property proved below). -/
inductive Json where
  | null
  | bool (b : Bool)
  | num (n : Int)
  | str (s : String)
  | arr (elems : List Json)
  | obj (fields : List (String × Json))
deriving Repr

mutual

/-- Decidable equality on `Json` (the deriving handler does not support the
nested `List` occurrences, so it is spelled out). -/
def Json.decEq : (a b : Json) → Decidable (a = b)
  | .null, .null => .isTrue rfl
  | .bool a, .bool b =>
      if h : a = b then .isTrue (h ▸ rfl)
      else .isFalse (fun e => h (Json.bool.inj e))
  | .num a, .num b =>
      if h : a = b then .isTrue (h ▸ rfl)
      else .isFalse (fun e => h (Json.num.inj e))
  | .str a, .str b =>
      if h : a = b then .isTrue (h ▸ rfl)
      else .isFalse (fun e => h (Json.str.inj e))
  | .arr xs, .arr ys =>
      match Json.decEqList xs ys with
      | .isTrue h => .isTrue (h ▸ rfl)
      | .isFalse h => .isFalse (fun e => h (Json.arr.inj e))
  | .obj fs, .obj gs =>
      match Json.decEqFields fs gs with
      | .isTrue h => .isTrue (h ▸ rfl)
      | .isFalse h => .isFalse (fun e => h (Json.obj.inj e))
  | .null, .bool _ | .null, .num _ | .null, .str _ | .null, .arr _ | .null, .obj _
  | .bool _, .null | .bool _, .num _ | .bool _, .str _ | .bool _, .arr _ | .bool _, .obj _
  | .num _, .null | .num _, .bool _ | .num _, .str _ | .num _, .arr _ | .num _, .obj _
  | .str _, .null | .str _, .bool _ | .str _, .num _ | .str _, .arr _ | .str _, .obj _
  | .arr _, .null | .arr _, .bool _ | .arr _, .num _ | .arr _, .str _ | .arr _, .obj _
  | .obj _, .null | .obj _, .bool _ | .obj _, .num _ | .obj _, .str _ | .obj _, .arr _ =>
      .isFalse (fun e => Json.noConfusion e)

/-- Decidable equality on lists of `Json`. -/
def Json.decEqList : (xs ys : List Json) → Decidable (xs = ys)
  | [], [] => .isTrue rfl
  | [], _ :: _ => .isFalse (fun e => List.noConfusion e)
  | _ :: _, [] => .isFalse (fun e => List.noConfusion e)
  | x :: xs, y :: ys =>
      match Json.decEq x y with
      | .isFalse h => .isFalse (fun e => h (List.cons.inj e).1)
      | .isTrue h1 =>
          match Json.decEqList xs ys with
          | .isTrue h2 => .isTrue (by rw [h1, h2])
          | .isFalse h2 => .isFalse (fun e => h2 (List.cons.inj e).2)

/-- Decidable equality on `Json` object field lists. -/
def Json.decEqFields : (fs gs : List (String × Json)) → Decidable (fs = gs)
  | [], [] => .isTrue rfl
  | [], _ :: _ => .isFalse (fun e => List.noConfusion e)
  | _ :: _, [] => .isFalse (fun e => List.noConfusion e)
  | (k, v) :: fs, (l, w) :: gs =>
      if hk : k = l then
        match Json.decEq v w with
        | .isFalse h => .isFalse (fun e => h (congrArg Prod.snd (List.cons.inj e).1))
        | .isTrue hv =>
            match Json.decEqFields fs gs with
            | .isTrue hf => .isTrue (by rw [hk, hv, hf])
            | .isFalse hf => .isFalse (fun e => hf (List.cons.inj e).2)
      else .isFalse (fun e => hk (congrArg Prod.fst (List.cons.inj e).1))

end

instance : DecidableEq Json := Json.decEq

deriving instance DecidableEq for Except

/-- One chat turn: a dict `{"role": ..., "content": ...}` with both keys
present as strings, the shape every caller in the repository constructs. -/
structure Msg where
  role : String
  content : String
deriving DecidableEq, Repr

/-- Model of Python's `s.format(max_tokens=n)` as used on the mode templates:
scans the string; `\x7b\x7b` and `\x7d\x7d` are brace escapes, the field
`\x7bmax_tokens\x7d` is replaced by the decimal rendering of `n`, and any
other replacement field, an unterminated field, or a stray closing brace
raises (`KeyError`/`IndexError`/`ValueError`), modelled as `Except.error`.
The templates in the repository use no conversion or format specifications,
so those are not modelled (a field with one is treated as erroneous).
The first argument is the accumulator of the field name currently being
scanned (`none` when outside a replacement field). -/
def pyFmt (maxTokens : Nat) : Option (List Char) → List Char → Except Unit (List Char)
  | none, [] => Except.ok []
  | none, '{' :: '{' :: rest => (pyFmt maxTokens none rest).map (fun cs => '{' :: cs)
  | none, '}' :: '}' :: rest => (pyFmt maxTokens none rest).map (fun cs => '}' :: cs)
  | none, '{' :: rest => pyFmt maxTokens (some []) rest
  | none, '}' :: _ => Except.error ()
  | none, c :: rest => (pyFmt maxTokens none rest).map (fun cs => c :: cs)
  | some _, [] => Except.error ()
  | some acc, '}' :: rest =>
      if acc = "max_tokens".toList then
        (pyFmt maxTokens none rest).map (fun cs => (Nat.repr maxTokens).toList ++ cs)
      else Except.error ()
  | some acc, c :: rest => pyFmt maxTokens (some (acc ++ [c])) rest

/-- Python `s.format(max_tokens=maxTokens)` on a whole string. -/
def pyFormat (s : String) (maxTokens : Nat) : Except Unit String :=
  (pyFmt maxTokens none s.toList).map String.mk

/-- Python negative-index tail slice `xs[-n:]`: the `n` most recent elements,
except that `n = 0` yields the whole list (`-0 == 0` in Python, so the slice
is `xs[0:]`). -/
def pyLastSlice (xs : List α) (n : Nat) : List α :=
  if n = 0 then xs else xs.drop (xs.length - n)

/-- History truncation performed at the top of `build_prompt_from_messages`
(identical in `revised_bedrock.py` line 86 and `bedrockChatbot.py` line 46):
`messages[-MAX_HISTORY_MESSAGES:] if len(messages) > MAX_HISTORY_MESSAGES
else messages[:]`. -/
def truncateHistory (messages : List Msg) (maxHistory : Nat) : List Msg :=
  if messages.length > maxHistory then pyLastSlice messages maxHistory else messages

/-- Default `MAX_HISTORY_MESSAGES` (env-configurable, default `"8"`). -/
def MAX_HISTORY_MESSAGES : Nat := 8

/-- Embedding of `build_prompt_from_messages(messages, max_tokens)` from
`revised_bedrock.py` lines 72-126 (the version in `bedrockChatbot.py`
lines 45-69 is the same computation): truncate the history, extract and
format a leading system turn (falling back to the raw content if formatting
raises), label the remaining turns, and join with a trailing
`Assistant:` marker.  The history window is passed explicitly. -/
def build_prompt_from_messages (messages : List Msg) (maxTokens : Nat)
    (maxHistory : Nat) : String :=
  let history := truncateHistory messages maxHistory
  let sysHist : String × List Msg :=
    match history with
    | m0 :: rest =>
        if m0.role = "system" then
          (match pyFormat m0.content maxTokens with
           | Except.ok s => s
           | Except.error _ => m0.content, rest)
        else ("", history)
    | [] => ("", [])
  let parts0 : List String := if sysHist.1 ≠ "" then ["System: " ++ sysHist.1] else []
  let parts := parts0 ++ sysHist.2.map
    (fun m => if m.role = "user" then "User: " ++ m.content else "Assistant: " ++ m.content)
  String.intercalate "\n" (parts ++ ["Assistant:"])

mutual

/-- Python `repr` of a JSON value (used through `pyStr` for `str(x)` on a
non-string).  String escaping inside `repr` is not modelled: no template or
response shape exercised by the repository hits that path. -/
def pyRepr : Json → String
  | .null => "None"
  | .bool true => "True"
  | .bool false => "False"
  | .num n => toString n
  | .str s => "\x27" ++ s ++ "\x27"
  | .arr xs => "[" ++ pyReprList xs ++ "]"
  | .obj fs => "\x7b" ++ pyReprFields fs ++ "\x7d"

/-- Comma-separated `repr` of list elements. -/
def pyReprList : List Json → String
  | [] => ""
  | [x] => pyRepr x
  | x :: xs => pyRepr x ++ ", " ++ pyReprList xs

/-- Comma-separated `repr` of object fields. -/
def pyReprFields : List (String × Json) → String
  | [] => ""
  | [(k, v)] => "\x27" ++ k ++ "\x27: " ++ pyRepr v
  | (k, v) :: fs => "\x27" ++ k ++ "\x27: " ++ pyRepr v ++ ", " ++ pyReprFields fs

end

/-- Python `str(x)` on a decoded JSON value: a string is returned as itself,
anything else is rendered. -/
def pyStr : Json → String
  | .str s => s
  | j => pyRepr j

/-- Python `s.strip()`: drop leading and trailing whitespace. -/
def pyStrip (s : String) : String :=
  String.mk (((s.toList.dropWhile Char.isWhitespace).reverse.dropWhile
    Char.isWhitespace).reverse)

/-- A Bedrock response body after the stream-read/`str()` step at the top of
`parse_bedrock_response`: `parsed t j` stands for a decoded body text `t` on
which `json.loads` succeeds and yields `j`; `unparsable t` stands for a
decoded text on which `json.loads` raises `JSONDecodeError`. -/
inductive RawBody where
  | parsed (text : String) (j : Json)
  | unparsable (text : String)
deriving DecidableEq

/-- Defensive navigation `parsed.get("output", \x7b\x7d).get("message",
\x7b\x7d).get("content", [])` followed by the first-element `"text"` lookup
(`revised_bedrock.py` lines 163-172).  Returns `some (str(first["text"]))`
when the path matches; `none` both when an intermediate `.get` raises
`AttributeError` (swallowed by the surrounding `except`) and when the
structure simply does not match — either way the caller falls through to the
raw-text return. -/
def contentFirstText (j : Json) : Option String :=
  match j with
  | .obj fs =>
      match (fs.lookup "output").getD (Json.obj []) with
      | .obj ofs =>
          match (ofs.lookup "message").getD (Json.obj []) with
          | .obj mfs =>
              match (mfs.lookup "content").getD (Json.arr []) with
              | .arr (first :: _) =>
                  match first with
                  | .obj ffs =>
                      match ffs.lookup "text" with
                      | some v => some (pyStr v)
                      | none => none
                  | _ => none
              | _ => none
          | _ => none
      | _ => none
  | _ => none

/-- Embedding of `parse_bedrock_response(raw_body)` from `revised_bedrock.py`
lines 129-175.  `none` models the one uncaught exception in the function:
`parsed["outputText"].strip()` raising `AttributeError` when the
`outputText` value is not a string.  Otherwise the result is
`some (text, parsed_json)` exactly as the source returns it. -/
def parse_bedrock_response (body : RawBody) : Option (String × Json) :=
  match body with
  | .unparsable t => some (pyStrip t, Json.obj [])
  | .parsed t j =>
      match j with
      | .obj fs =>
          match fs.lookup "outputText" with
          | some (Json.str s) => some (pyStrip s, j)
          | some _ => none
          | none =>
              match contentFirstText j with
              | some s => some (pyStrip s, j)
              | none => some (pyStrip t, j)
      | _ =>
          match contentFirstText j with
          | some s => some (pyStrip s, j)
          | none => some (pyStrip t, j)

/-- Embedding of the simpler `parse_bedrock_response(raw_body)` from
`bedrockChatbot.py` lines 72-88: the same `outputText` fast path, but no
nested `output.message.content[0].text` navigation — any parsed body without
a top-level `outputText` string falls back to the raw body text. -/
def parse_bedrock_response_basic (body : RawBody) : Option (String × Json) :=
  match body with
  | .unparsable t => some (pyStrip t, Json.obj [])
  | .parsed t j =>
      match j with
      | .obj fs =>
          match fs.lookup "outputText" with
          | some (Json.str s) => some (pyStrip s, j)
          | some _ => none
          | none => some (pyStrip t, j)
      | _ => some (pyStrip t, j)

/-- Usage extraction `parsed_json.get("usage", \x7b\x7d) if
isinstance(parsed_json, dict) else \x7b\x7d` (`revised_bedrock.py`
line 249; the same expression guards the simpler variants). -/
def usageOf (j : Json) : Json :=
  match j with
  | .obj fs => (fs.lookup "usage").getD (Json.obj [])
  | _ => Json.obj []

/-- Python `s.lower()` (ASCII case folding, which is all the mode names use). -/
def pyLower (s : String) : String :=
  String.mk (s.toList.map Char.toLower)

/-- Helper for `pySplitWords`: accumulate the current word (reversed) while
scanning. -/
def wordsAux : List Char → List Char → List (List Char)
  | acc, [] => if acc = [] then [] else [acc.reverse]
  | acc, c :: rest =>
      if c.isWhitespace then
        if acc = [] then wordsAux [] rest else acc.reverse :: wordsAux [] rest
      else wordsAux (c :: acc) rest

/-- Python `s.split()` with no argument: split on whitespace runs, dropping
empty pieces. -/
def pySplitWords (s : String) : List String :=
  (wordsAux [] s.toList).map String.mk

/-- Python `s.endswith((".", "!", "?"))`: the last character is
sentence-terminating punctuation (an empty string ends with none). -/
def endsSentence (s : String) : Bool :=
  match s.toList.getLast? with
  | some c => c = '.' || c = '!' || c = '?'
  | none => false

/-- The truncation-marker heuristic of `advanceChatBot.query` lines 76-77:
append a trimming notice when the reply is longer than ten words and does
not end in sentence punctuation. -/
def truncMark (s : String) : String :=
  if (pySplitWords s).length > 10 && !(endsSentence s) then
    s ++ " [...] (response trimmed due to token limit)"
  else s

/-- The mode registry of `advanceChatBot.py` lines 16-21. -/
def modes : List (String × String) :=
  [("summarizer", "You are a professional text summarizer. Provide a complete, concise, and meaningful answer within \x7bmax_tokens\x7d tokens."),
   ("translator", "You are a language translator. Provide a complete translation within \x7bmax_tokens\x7d tokens, keeping the context intact."),
   ("story generator", "You are a creative story writer. Write a self-contained story that fits within \x7bmax_tokens\x7d tokens without getting cut off."),
   ("marvel predictor", "You are a predictor of Marvel stories. Predict interesting storylines based on input. Provide a full and coherent prediction within \x7bmax_tokens\x7d tokens.")]

/-- Embedding of `choose_mode()` from `advanceChatBot.py` lines 24-29, with
the interactive `input()` passed as the argument: the entered text is
stripped and lowercased, and the result is kept only if it is a key of the
mode registry, falling back to `"marvel predictor"` otherwise. -/
def choose_mode (entered : String) : String :=
  let mode := pyLower (pyStrip entered)
  if (modes.lookup mode).isSome then mode else "marvel predictor"

/-- Outcome of the `try` block of `advanceChatBot.query` lines 51-69:
either `requests.post`/`response.json()` raised (`exn` with the exception
text), or a response arrived with its status code, raw text and parsed JSON
body (`data = response.json()` succeeded). -/
inductive HttpOutcome where
  | exn (msg : String)
  | resp (status : Nat) (text : String) (data : Json)
deriving DecidableEq

/-- Extraction `data.get("choices", [\x7b\x7d])[0].get("message",
\x7b\x7d).get("content", "")` from `advanceChatBot.query` line 72, performed
outside any `try`: `none` models an uncaught exception (indexing or
attribute access on an unexpected shape, or a non-string content value that
would make the later `.split()` raise), which propagates to the caller. -/
def extractAssistant (data : Json) : Option String :=
  match data with
  | .obj fs =>
      match (fs.lookup "choices").getD (Json.arr [Json.obj []]) with
      | .arr (c0 :: _) =>
          match c0 with
          | .obj cf =>
              match (cf.lookup "message").getD (Json.obj []) with
              | .obj mf =>
                  match (mf.lookup "content").getD (Json.str "") with
                  | .str s => some s
                  | _ => none
              | _ => none
          | _ => none
      | _ => none
  | _ => none

/-- The `updated_messages` payload construction of `advanceChatBot.query`
lines 33-39: `messages[0]["content"].format(max_tokens=max_tokens)` becomes
the content of a fresh system turn prepended to `messages[1:]`.
`Except.error` models the exceptions this raises before the `try` block:
`IndexError` on an empty list and the formatting errors of `pyFormat`. -/
def updatedMessages (messages : List Msg) (maxTokens : Nat) :
    Except Unit (List Msg) :=
  match messages with
  | [] => Except.error ()
  | m0 :: rest =>
      (pyFormat m0.content maxTokens).map (fun s => ⟨"system", s⟩ :: rest)

/-- Embedding of `query(messages, temperature, max_tokens)` from
`advanceChatBot.py` lines 32-83.  The HTTP round trip is the oracle `env`;
the measured wall-clock seconds are the abstract `elapsed`.  `Except.error`
models an exception escaping to the caller: `messages[0]` on an empty list
(`IndexError`) and `.format(max_tokens=...)` on a content string with any
other replacement field both happen before the `try` block, and the
response-shape extraction happens after it.  `Except.ok` carries the dict
the function returns. -/
def query (messages : List Msg) (maxTokens : Nat) (env : HttpOutcome)
    (elapsed : Int) : Except Unit (List (String × Json)) :=
  match updatedMessages messages maxTokens with
  | Except.error _ => Except.error ()
  | Except.ok _updated =>
          match env with
          | .exn msg =>
              Except.ok [("error", Json.str ("Request Failed: " ++ msg)),
                         ("time", Json.num elapsed), ("usage", Json.obj [])]
          | .resp status text data =>
              if status ≠ 200 then
                Except.ok [("error", Json.str ("Error " ++ Nat.repr status ++ ": " ++ text)),
                           ("time", Json.num elapsed), ("usage", Json.obj [])]
              else
                match extractAssistant data with
                | none => Except.error ()
                | some a =>
                    Except.ok [("response", Json.str (truncMark a)),
                               ("time", Json.num elapsed), ("usage", usageOf data)]

/-- Payload message construction of `query_bedrock` (`revised_bedrock.py`
lines 204-218; `bedrockChatbot.py` lines 96-117 is the same computation): a
system turn is rewritten to a user turn whose text is prefixed with
`System instruction: ` (the raw content, with no token-budget
substitution), and every other turn is wrapped as
`\x7b"role": ..., "content": [\x7b"text": ...\x7d]\x7d`. -/
def toChatMessages (messages : List Msg) : List Json :=
  messages.map fun m =>
    if m.role = "system" then
      Json.obj [("role", Json.str "user"),
                ("content", Json.arr [Json.obj [("text",
                  Json.str ("System instruction: " ++ m.content))]])]
    else if m.role = "user" then
      Json.obj [("role", Json.str "user"),
                ("content", Json.arr [Json.obj [("text", Json.str m.content)]])]
    else
      Json.obj [("role", Json.str "assistant"),
                ("content", Json.arr [Json.obj [("text", Json.str m.content)]])]

/-- One attempt of the `try` body of `revised_bedrock.query_bedrock`
lines 232-254: the oracle outcome of `bedrock.invoke_model` (an exception
text, or the response body), followed by `parse_bedrock_response` and the
usage extraction.  A parse that itself raises (`parse_bedrock_response`
returning `none`) is caught by the same `except` clause; its exception text
is abstracted as `"AttributeError"`. -/
def callParse (c : Except String RawBody) : Except String (String × Json) :=
  match c with
  | Except.error e => Except.error e
  | Except.ok body =>
      match parse_bedrock_response body with
      | some (t, parsed) => Except.ok (t, usageOf parsed)
      | none => Except.error "AttributeError"

/-- Final outcome of the retry loop: the success pair or the text of the
last raised exception. -/
inductive QBRes where
  | success (text : String) (usage : Json)
  | failure (lastErr : String)
deriving DecidableEq

/-- Observable trace of the retry loop of `revised_bedrock.query_bedrock`
lines 226-274: outcome, number of `invoke_model` attempts performed, and
the `time.sleep` durations (in order) between failed attempts. -/
structure QBTrace where
  res : QBRes
  attempts : Nat
  sleeps : List ℚ
deriving DecidableEq

/-- Extend a retry-loop trace with one earlier failed attempt that slept for
`s` before the rest of the trace unfolded. -/
def consTr (s : ℚ) (tr : QBTrace) : QBTrace :=
  ⟨tr.res, tr.attempts + 1, s :: tr.sleeps⟩

/-- The retry loop of `revised_bedrock.query_bedrock` lines 226-272, as a
recursion on the number of retries still allowed.  `qbGo calls jitter base k
i` runs attempt number `i` (1-based, matching the incremented `attempt`
variable) with `k` retries remaining after it.  A successful attempt stops
the loop; a failed attempt with no retries left ends the loop with the last
exception; otherwise the loop sleeps `base * 2 ^ (i - 1) + jitter i` —
`random.uniform(0, backoff * 0.1)` is the oracle `jitter` — and moves to
the next attempt. -/
def qbGo (calls : Nat → Except String RawBody) (jitter : Nat → ℚ) (base : ℚ) :
    Nat → Nat → QBTrace
  | 0, i =>
      match callParse (calls i) with
      | Except.ok (t, u) => ⟨QBRes.success t u, 1, []⟩
      | Except.error e => ⟨QBRes.failure e, 1, []⟩
  | k + 1, i =>
      match callParse (calls i) with
      | Except.ok (t, u) => ⟨QBRes.success t u, 1, []⟩
      | Except.error _ =>
          consTr (base * 2 ^ (i - 1) + jitter i) (qbGo calls jitter base k (i + 1))

/-- `query_bedrock` with `max_retries = m` runs the loop from attempt 1 with
`m` retries remaining (the `while attempt <= max_retries` loop performs at
most `m + 1` iterations of the `try` body). -/
def qbRun (calls : Nat → Except String RawBody) (jitter : Nat → ℚ) (base : ℚ)
    (maxRetries : Nat) : QBTrace :=
  qbGo calls jitter base maxRetries 1

/-- The dict returned by `revised_bedrock.query_bedrock` (lines 254 and
274): `\x7b"response", "time", "usage"\x7d` on success,
`\x7b"error", "time", "usage": \x7b\x7d\x7d` after exhausted retries.  The
measured elapsed seconds are the abstract `elapsed`. -/
def query_bedrock (calls : Nat → Except String RawBody) (jitter : Nat → ℚ)
    (base : ℚ) (maxRetries : Nat) (elapsed : Int) : List (String × Json) :=
  match (qbRun calls jitter base maxRetries).res with
  | QBRes.success t u =>
      [("response", Json.str t), ("time", Json.num elapsed), ("usage", u)]
  | QBRes.failure e =>
      [("error", Json.str e), ("time", Json.num elapsed), ("usage", Json.obj [])]

/-- Direct extraction `response_json["output"]["message"]["content"][0]["text"]`
from `bedrockChatbot.query_bedrock` line 141: `none` models a raised
`KeyError`/`IndexError`/`TypeError` on any shape mismatch (caught by the
surrounding `except`). -/
def novaReply (j : Json) : Option Json :=
  match j with
  | .obj fs =>
      match fs.lookup "output" with
      | some (.obj ofs) =>
          match ofs.lookup "message" with
          | some (.obj mfs) =>
              match mfs.lookup "content" with
              | some (.arr (first :: _)) =>
                  match first with
                  | .obj ffs => ffs.lookup "text"
                  | _ => none
              | _ => none
          | _ => none
      | _ => none
  | _ => none

/-- Embedding of `bedrockChatbot.query_bedrock` lines 91-150: the whole
`try` body up to and including `json.loads` is the oracle `env` (an
exception text or the parsed body); a reply extracted from the Nova shape
yields the success dict, and any exception yields
`\x7b"error": str(e), "time": 0, "usage": \x7b\x7d\x7d`.  The exception text
of a failed extraction is abstracted as `"KeyError"`. -/
def query_bedrock_basic (env : Except String Json) (elapsed : Int) :
    List (String × Json) :=
  match env with
  | Except.error e =>
      [("error", Json.str e), ("time", Json.num 0), ("usage", Json.obj [])]
  | Except.ok j =>
      match novaReply j with
      | some reply =>
          [("response", reply), ("time", Json.num elapsed), ("usage", usageOf j)]
      | none =>
          [("error", Json.str "KeyError"), ("time", Json.num 0), ("usage", Json.obj [])]

/-- The on-disk state of the chat log file: absent, present and parsing to a
JSON value, or present with content on which `json.load` raises. -/
inductive FileState where
  | absent
  | content (j : Json)
  | corrupt (raw : String)
deriving DecidableEq

/-- The prior entries `save_response_local` starts from in
`revised_bedrock.py` lines 300-313: an absent file, a file that fails to
parse, and a file whose JSON is not a list all count as zero prior
entries. -/
def priorLogs : FileState → List Json
  | FileState.absent => []
  | FileState.content (Json.arr xs) => xs
  | FileState.content _ => []
  | FileState.corrupt _ => []

/-- The log entry constructed by both `save_response_local` variants
(`revised_bedrock.py` lines 292-298, `advanceChatBot.py` lines 87-93) from
the current timestamp, the prompt and the query-result dict. -/
def mkLogEntry (timestamp prompt : String) (resp : List (String × Json)) : Json :=
  Json.obj [("timestamp", Json.str timestamp),
            ("user", Json.str prompt),
            ("assistant", (resp.lookup "response").getD (Json.str "")),
            ("response_time_sec", (resp.lookup "time").getD (Json.num 0)),
            ("token_usage", (resp.lookup "usage").getD (Json.obj []))]

/-- Embedding of `save_response_local(prompt, assistant_response)` from
`revised_bedrock.py` lines 279-321: read the prior entries defensively,
append the new entry, rewrite the file as the full array.  The function is
total — every read failure is swallowed (and a write failure is logged, not
raised, leaving the semantics of the persisted array unchanged on a clean
run). -/
def save_response_local (timestamp prompt : String)
    (resp : List (String × Json)) (fs : FileState) : FileState :=
  FileState.content (Json.arr (priorLogs fs ++ [mkLogEntry timestamp prompt resp]))

/-- Embedding of `save_response_local(prompt, assistant_response)` from
`advanceChatBot.py` lines 86-104: `json.load` is not guarded, so an
existing file that fails to parse raises to the caller, and a parsed file
that is not a list makes `logs.append` raise `AttributeError`; only an
absent file or a JSON-array file reaches the rewrite. -/
def save_response_local_adv (timestamp prompt : String)
    (resp : List (String × Json)) (fs : FileState) : Except Unit FileState :=
  match fs with
  | FileState.absent =>
      Except.ok (FileState.content (Json.arr [mkLogEntry timestamp prompt resp]))
  | FileState.content (Json.arr xs) =>
      Except.ok (FileState.content (Json.arr (xs ++ [mkLogEntry timestamp prompt resp])))
  | FileState.content _ => Except.error ()
  | FileState.corrupt _ => Except.error ()

/-- A key is present in a returned result dict. -/
def hasKey (d : List (String × Json)) (k : String) : Bool :=
  (d.lookup k).isSome

/-- The success shape of a QueryResult dict: `response`, `time` and `usage`
fields present, no `error` field. -/
def isSuccessShape (d : List (String × Json)) : Bool :=
  hasKey d "response" && hasKey d "time" && hasKey d "usage" && !(hasKey d "error")

/-- The failure shape of a QueryResult dict: `error` and `time` fields
present, `usage` equal to the empty mapping, no `response` field. -/
def isErrorShape (d : List (String × Json)) : Bool :=
  hasKey d "error" && hasKey d "time" &&
    decide (d.lookup "usage" = some (Json.obj [])) && !(hasKey d "response")

/-- A returned dict matches exactly one of the two QueryResult shapes. -/
def exactlyOneShape (d : List (String × Json)) : Bool :=
  (isSuccessShape d).xor (isErrorShape d)

/-! ## Claim theorems -/

/-- Claim C8: for every entered mode-name string whose stripped, lowercased
form is not a key of the mode registry, `choose_mode` returns the default
mode `"marvel predictor"` instead of raising. -/
theorem choose_mode_unknown_default (entered : String)
    (h : modes.lookup (pyLower (pyStrip entered)) = none) :
    choose_mode entered = "marvel predictor" := by
  simp [choose_mode, h]

/-- Witness for `choose_mode_unknown_default` at the concrete unknown mode
name `" Pirate Mode "`. -/
theorem choose_mode_unknown_default_witness :
    choose_mode " Pirate Mode " = "marvel predictor" :=
  choose_mode_unknown_default " Pirate Mode " (by decide)

/-- Counterexample to claim C6 as stated: `bedrockChatbot.py`'s
`parse_bedrock_response` (lines 72-88), one of the claim's cited
normalizers, has no nested `output.message.content[0].text` path — on the
claim's second example body it falls back to the stripped raw body text
instead of returning `("hi there", the full parsed body)`. -/
theorem parse_basic_nested_raw_cex :
    parse_bedrock_response_basic
        (RawBody.parsed "nested body"
          (Json.obj [("output", Json.obj [("message", Json.obj [("content",
            Json.arr [Json.obj [("text", Json.str "hi there")]])])])])) =
      some ("nested body",
        Json.obj [("output", Json.obj [("message", Json.obj [("content",
          Json.arr [Json.obj [("text", Json.str "hi there")]])])])])
  ∧ parse_bedrock_response_basic
        (RawBody.parsed "nested body"
          (Json.obj [("output", Json.obj [("message", Json.obj [("content",
            Json.arr [Json.obj [("text", Json.str "hi there")]])])])])) ≠
      some ("hi there",
        Json.obj [("output", Json.obj [("message", Json.obj [("content",
          Json.arr [Json.obj [("text", Json.str "hi there")]])])])]) := by
  refine ⟨by decide, by decide⟩

/-- Claim C6 (amended): the refined response normalizer
(`parse_bedrock_response`, `revised_bedrock.py`) applies its decoding
precedence in order with first match winning: a body parsing to
`\x7b"outputText": "hello"\x7d` yields `("hello", that object)`; otherwise
a body parsing to the nested `output.message.content[0].text` shape yields
`("hi there", the full parsed body)`; and when both shapes are present the
top-level `outputText` wins.  The earlier `bedrockChatbot.py` normalizer
returns `("hello", that object)` for the first body, but lacks the nested
path and returns the stripped raw body text for the second. -/
theorem parse_precedence_examples :
    parse_bedrock_response
        (RawBody.parsed "bodyA" (Json.obj [("outputText", Json.str "hello")])) =
      some ("hello", Json.obj [("outputText", Json.str "hello")])
  ∧ parse_bedrock_response
        (RawBody.parsed "bodyB"
          (Json.obj [("output", Json.obj [("message", Json.obj [("content",
            Json.arr [Json.obj [("text", Json.str "hi there")]])])])])) =
      some ("hi there",
        Json.obj [("output", Json.obj [("message", Json.obj [("content",
          Json.arr [Json.obj [("text", Json.str "hi there")]])])])])
  ∧ parse_bedrock_response
        (RawBody.parsed "bodyC"
          (Json.obj [("outputText", Json.str "hello"),
            ("output", Json.obj [("message", Json.obj [("content",
              Json.arr [Json.obj [("text", Json.str "hi there")]])])])])) =
      some ("hello",
        Json.obj [("outputText", Json.str "hello"),
          ("output", Json.obj [("message", Json.obj [("content",
            Json.arr [Json.obj [("text", Json.str "hi there")]])])])])
  ∧ parse_bedrock_response_basic
        (RawBody.parsed "bodyA" (Json.obj [("outputText", Json.str "hello")])) =
      some ("hello", Json.obj [("outputText", Json.str "hello")])
  ∧ parse_bedrock_response_basic
        (RawBody.parsed "bodyB"
          (Json.obj [("output", Json.obj [("message", Json.obj [("content",
            Json.arr [Json.obj [("text", Json.str "hi there")]])])])])) =
      some ("bodyB",
        Json.obj [("output", Json.obj [("message", Json.obj [("content",
          Json.arr [Json.obj [("text", Json.str "hi there")]])])])]) := by
  refine ⟨by decide, by decide, by decide, by decide, by decide⟩

/-- Counterexample to claim C7 as stated: on the unparsable body `" hi "`
the normalizer does not return the raw decoded text as-is — it strips the
surrounding whitespace. -/
theorem parse_unparsable_as_is_cex :
    parse_bedrock_response (RawBody.unparsable " hi ") =
      some ("hi", Json.obj [])
  ∧ parse_bedrock_response (RawBody.unparsable " hi ") ≠
      some (" hi ", Json.obj []) := by
  refine ⟨by decide, by decide⟩

/-- Claim C7 (amended): for every response body that fails to parse as JSON,
both normalizer variants return the raw decoded text stripped of leading and
trailing whitespace, paired with an empty usage mapping, and do not raise. -/
theorem parse_unparsable_returns_stripped (t : String) :
    parse_bedrock_response (RawBody.unparsable t) = some (pyStrip t, Json.obj [])
  ∧ parse_bedrock_response_basic (RawBody.unparsable t) =
      some (pyStrip t, Json.obj []) :=
  ⟨rfl, rfl⟩

/-- Claim C9: `advanceChatBot.query` evaluates
`messages[0]["content"].format(max_tokens=...)` before entering its
exception-handling block, so an empty message list raises `IndexError` to
the caller, and a first-turn content whose formatting fails (any replacement
field other than `max_tokens`, such as the concrete `\x7bhero\x7d`) raises
to the caller — in both cases no error-shaped dict is returned. -/
theorem query_preconditions_raise :
    (∀ (maxTokens : Nat) (env : HttpOutcome) (elapsed : Int),
        query [] maxTokens env elapsed = Except.error ())
  ∧ (∀ (m0 : Msg) (rest : List Msg) (maxTokens : Nat) (env : HttpOutcome)
        (elapsed : Int), pyFormat m0.content maxTokens = Except.error () →
        query (m0 :: rest) maxTokens env elapsed = Except.error ())
  ∧ pyFormat "predict \x7bhero\x7d stories" 100 = Except.error () := by
  refine ⟨fun _ _ _ => rfl, fun m0 rest maxTokens env elapsed h => ?_, by decide⟩
  have hu : updatedMessages (m0 :: rest) maxTokens = Except.error () := by
    simp [updatedMessages, h, Except.map]
  simp [query, hu]

/-- Witness for `query_preconditions_raise` at a concrete message list whose
first-turn content holds the replacement field `\x7bhero\x7d`. -/
theorem query_preconditions_raise_witness :
    query [⟨"user", "tell \x7bhero\x7d"⟩] 50 (HttpOutcome.exn "down") 2 =
      Except.error () :=
  query_preconditions_raise.2.1 ⟨"user", "tell \x7bhero\x7d"⟩ [] 50
    (HttpOutcome.exn "down") 2 (by decide)

/-- Counterexample to claim C1 as stated: with the default window of 8, a
9-turn sequence whose first turn is the system turn is truncated to the 8
most recent turns, and the leading system turn is not preserved. -/
theorem truncate_drops_leading_system_cex :
    truncateHistory
        [⟨"system", "S"⟩, ⟨"user", "u1"⟩, ⟨"assistant", "a1"⟩, ⟨"user", "u2"⟩,
         ⟨"assistant", "a2"⟩, ⟨"user", "u3"⟩, ⟨"assistant", "a3"⟩, ⟨"user", "u4"⟩,
         ⟨"assistant", "a4"⟩] MAX_HISTORY_MESSAGES =
      [⟨"user", "u1"⟩, ⟨"assistant", "a1"⟩, ⟨"user", "u2"⟩, ⟨"assistant", "a2"⟩,
       ⟨"user", "u3"⟩, ⟨"assistant", "a3"⟩, ⟨"user", "u4"⟩, ⟨"assistant", "a4"⟩]
  ∧ Msg.mk "system" "S" ∉ truncateHistory
        [⟨"system", "S"⟩, ⟨"user", "u1"⟩, ⟨"assistant", "a1"⟩, ⟨"user", "u2"⟩,
         ⟨"assistant", "a2"⟩, ⟨"user", "u3"⟩, ⟨"assistant", "a3"⟩, ⟨"user", "u4"⟩,
         ⟨"assistant", "a4"⟩] MAX_HISTORY_MESSAGES := by
  refine ⟨by decide, by decide⟩

/-- Claim C1 (amended): for every turn sequence longer than the configured
(positive) history window, the truncated history consists of exactly the
window-size most recent turns, whether or not a leading system turn was
present — a leading system turn outside that window is dropped, not
preserved. -/
theorem truncate_keeps_window_most_recent (messages : List Msg) (n : Nat)
    (hn : 0 < n) (hlen : n < messages.length) :
    (truncateHistory messages n).length = n
  ∧ truncateHistory messages n = (messages.reverse.take n).reverse := by
  have hne : n ≠ 0 := Nat.pos_iff_ne_zero.mp hn
  unfold truncateHistory pyLastSlice
  rw [if_pos hlen, if_neg hne]
  constructor
  · rw [List.length_drop]
    omega
  · have h := List.rtake_eq_reverse_take_reverse (l := messages) (n := n)
    rw [List.rtake] at h
    exact h

/-- Witness for `truncate_keeps_window_most_recent` at the concrete 9-turn
sequence and the default window of 8. -/
theorem truncate_keeps_window_most_recent_witness :
    (truncateHistory
        [⟨"system", "S"⟩, ⟨"user", "u1"⟩, ⟨"assistant", "a1"⟩, ⟨"user", "u2"⟩,
         ⟨"assistant", "a2"⟩, ⟨"user", "u3"⟩, ⟨"assistant", "a3"⟩, ⟨"user", "u4"⟩,
         ⟨"assistant", "a4"⟩] MAX_HISTORY_MESSAGES).length = MAX_HISTORY_MESSAGES
  ∧ truncateHistory
        [⟨"system", "S"⟩, ⟨"user", "u1"⟩, ⟨"assistant", "a1"⟩, ⟨"user", "u2"⟩,
         ⟨"assistant", "a2"⟩, ⟨"user", "u3"⟩, ⟨"assistant", "a3"⟩, ⟨"user", "u4"⟩,
         ⟨"assistant", "a4"⟩] MAX_HISTORY_MESSAGES =
      (([⟨"system", "S"⟩, ⟨"user", "u1"⟩, ⟨"assistant", "a1"⟩, ⟨"user", "u2"⟩,
         ⟨"assistant", "a2"⟩, ⟨"user", "u3"⟩, ⟨"assistant", "a3"⟩, ⟨"user", "u4"⟩,
         ⟨"assistant", "a4"⟩] : List Msg).reverse.take MAX_HISTORY_MESSAGES).reverse :=
  truncate_keeps_window_most_recent
    [⟨"system", "S"⟩, ⟨"user", "u1"⟩, ⟨"assistant", "a1"⟩, ⟨"user", "u2"⟩,
     ⟨"assistant", "a2"⟩, ⟨"user", "u3"⟩, ⟨"assistant", "a3"⟩, ⟨"user", "u4"⟩,
     ⟨"assistant", "a4"⟩] MAX_HISTORY_MESSAGES (by decide) (by decide)

/-- Counterexample to claim C5 as stated: the Bedrock request builder
(`toChatMessages`, used by both `query_bedrock` variants to build the
dispatched payload) sends the system turn's raw content behind the
`System instruction:` prefix — the `\x7bmax_tokens\x7d` placeholder is not
substituted, even though formatting it with the caller's budget would
produce a different string. -/
theorem bedrock_payload_raw_template_cex :
    toChatMessages [⟨"system", "Predict within \x7bmax_tokens\x7d tokens."⟩] =
      [Json.obj [("role", Json.str "user"),
        ("content", Json.arr [Json.obj [("text",
          Json.str "System instruction: Predict within \x7bmax_tokens\x7d tokens.")]])]]
  ∧ pyFormat "Predict within \x7bmax_tokens\x7d tokens." 200 =
      Except.ok "Predict within 200 tokens."
  ∧ ("System instruction: Predict within \x7bmax_tokens\x7d tokens." ≠
      "System instruction: Predict within 200 tokens.") := by
  refine ⟨by decide, by decide, by decide⟩

/-- Claim C5 (amended): only the hub-router variant substitutes the
max-token budget: `advanceChatBot.query`'s payload replaces the first
turn's content by its formatted version, while the Bedrock variants'
dispatched payload wraps the system turn's raw, unformatted content behind
the `System instruction:` prefix. -/
theorem system_formatting_variants :
    (∀ (m0 : Msg) (rest : List Msg) (maxTokens : Nat) (s : String),
        pyFormat m0.content maxTokens = Except.ok s →
        updatedMessages (m0 :: rest) maxTokens =
          Except.ok (⟨"system", s⟩ :: rest))
  ∧ (∀ (m0 : Msg) (rest : List Msg), m0.role = "system" →
        (toChatMessages (m0 :: rest)).head? = some (Json.obj
          [("role", Json.str "user"),
           ("content", Json.arr [Json.obj [("text",
             Json.str ("System instruction: " ++ m0.content))]])])) := by
  constructor
  · intro m0 rest maxTokens s h
    simp [updatedMessages, h, Except.map]
  · intro m0 rest h
    simp [toChatMessages, h]

/-- Witness for `system_formatting_variants` at the concrete summarizer-like
template. -/
theorem system_formatting_variants_witness :
    updatedMessages [⟨"system", "Answer within \x7bmax_tokens\x7d tokens."⟩,
        ⟨"user", "hi"⟩] 200 =
      Except.ok [⟨"system", "Answer within 200 tokens."⟩, ⟨"user", "hi"⟩]
  ∧ (toChatMessages [⟨"system", "Answer within \x7bmax_tokens\x7d tokens."⟩,
        ⟨"user", "hi"⟩]).head? = some (Json.obj
      [("role", Json.str "user"),
       ("content", Json.arr [Json.obj [("text",
         Json.str "System instruction: Answer within \x7bmax_tokens\x7d tokens.")]])]) :=
  ⟨system_formatting_variants.1 ⟨"system", "Answer within \x7bmax_tokens\x7d tokens."⟩
      [⟨"user", "hi"⟩] 200 "Answer within 200 tokens." (by decide),
   system_formatting_variants.2 ⟨"system", "Answer within \x7bmax_tokens\x7d tokens."⟩
      [⟨"user", "hi"⟩] (by decide)⟩

/-- Counterexample to claim C3 as stated: `advanceChatBot.py`'s
`save_response_local` does not treat an unparsable pre-existing log file as
zero prior entries — the unguarded `json.load` raises to the caller. -/
theorem save_adv_corrupt_raises_cex :
    save_response_local_adv "2025-01-01 00:00:00" "hi" [] (FileState.corrupt "not json") =
      Except.error () := by decide

/-- Claim C3 (amended): `revised_bedrock.py`'s `save_response_local` never
loses previously written entries and never raises: appending N entries
sequentially and reading the log back yields the prior entries followed by
exactly those N entries in insertion order, and an unparsable or non-array
pre-existing file counts as zero prior entries.  `advanceChatBot.py`'s
variant performs the same append for an absent file or a JSON-array file,
but raises on an unparsable pre-existing file. -/
theorem save_response_local_roundtrip :
    (∀ (fs : FileState) (entries : List (String × String × List (String × Json))),
        priorLogs (entries.foldl
            (fun s e => save_response_local e.1 e.2.1 e.2.2 s) fs) =
          priorLogs fs ++ entries.map (fun e => mkLogEntry e.1 e.2.1 e.2.2))
  ∧ (∀ raw, priorLogs (FileState.corrupt raw) = [])
  ∧ (∀ j, (∀ xs, j ≠ Json.arr xs) → priorLogs (FileState.content j) = [])
  ∧ (∀ (ts p : String) (resp : List (String × Json)) (raw : String),
        save_response_local_adv ts p resp (FileState.corrupt raw) = Except.error ())
  ∧ (∀ (ts p : String) (resp : List (String × Json)) (xs : List Json),
        save_response_local_adv ts p resp (FileState.content (Json.arr xs)) =
          Except.ok (FileState.content (Json.arr (xs ++ [mkLogEntry ts p resp])))) := by
  refine ⟨?_, fun _ => rfl, ?_, fun _ _ _ _ => rfl, fun _ _ _ _ => rfl⟩
  · intro fs entries
    induction entries generalizing fs with
    | nil => simp
    | cons e es ih =>
        simp only [List.foldl_cons, List.map_cons]
        rw [ih]
        show priorLogs (FileState.content (Json.arr
            (priorLogs fs ++ [mkLogEntry e.1 e.2.1 e.2.2]))) ++ _ = _
        simp [priorLogs]
  · intro j h
    cases j with
    | arr xs => exact absurd rfl (h xs)
    | null => rfl
    | bool b => rfl
    | num n => rfl
    | str s => rfl
    | obj fs => rfl

/-- Witness for `save_response_local_roundtrip`: a parsed-but-not-an-array
log file (a JSON object) counts as zero prior entries in the refined
variant. -/
theorem save_response_local_roundtrip_witness :
    priorLogs (FileState.content (Json.obj [("note", Json.str "oops")])) = [] :=
  save_response_local_roundtrip.2.2.1 (Json.obj [("note", Json.str "oops")])
    (fun _ h => Json.noConfusion h)

/-- Claim C4: every value returned by the three query functions has exactly
one of the two QueryResult shapes — a success dict with `response`, `time`
and `usage` fields and no `error` field, or a failure dict with `error` and
`time` fields, an empty `usage` mapping and no `response` field — so
callers can distinguish the cases by the presence of the `error` key
alone. -/
theorem query_results_exactly_one_shape :
    (∀ (messages : List Msg) (maxTokens : Nat) (env : HttpOutcome)
        (elapsed : Int) (d : List (String × Json)),
        query messages maxTokens env elapsed = Except.ok d →
        exactlyOneShape d = true)
  ∧ (∀ (calls : Nat → Except String RawBody) (jitter : Nat → ℚ) (base : ℚ)
        (maxRetries : Nat) (elapsed : Int),
        exactlyOneShape (query_bedrock calls jitter base maxRetries elapsed) = true)
  ∧ (∀ (env : Except String Json) (elapsed : Int),
        exactlyOneShape (query_bedrock_basic env elapsed) = true) := by
  refine ⟨?_, ?_, ?_⟩
  · intro messages maxTokens env elapsed d h
    rcases hu : updatedMessages messages maxTokens with u | u
    · simp only [query, hu] at h
      exact Except.noConfusion h
    · simp only [query, hu] at h
      cases env with
      | exn msg =>
          obtain rfl := Except.ok.inj h
          rfl
      | resp status text data =>
          dsimp only at h
          by_cases hs : status ≠ 200
          · rw [if_pos hs] at h
            obtain rfl := Except.ok.inj h
            rfl
          · rw [if_neg hs] at h
            rcases he : extractAssistant data with _ | a <;> rw [he] at h
            · exact Except.noConfusion h
            · obtain rfl := Except.ok.inj h
              rfl
  · intro calls jitter base maxRetries elapsed
    rcases h : (qbRun calls jitter base maxRetries).res with ⟨t, u⟩ | e <;>
      simp only [query_bedrock, h] <;> rfl
  · intro env elapsed
    cases env with
    | error e => rfl
    | ok j =>
        rcases h : novaReply j with _ | reply <;>
          simp only [query_bedrock_basic, h] <;> rfl

/-- Witness for `query_results_exactly_one_shape`: the error dict returned
by `advanceChatBot.query` when the transport raises has exactly the failure
shape. -/
theorem query_results_exactly_one_shape_witness :
    exactlyOneShape [("error", Json.str "Request Failed: boom"),
      ("time", Json.num 1), ("usage", Json.obj [])] = true :=
  query_results_exactly_one_shape.1 [⟨"system", "hi"⟩] 100 (HttpOutcome.exn "boom") 1
    [("error", Json.str "Request Failed: boom"),
     ("time", Json.num 1), ("usage", Json.obj [])] (by decide)

/-- A successful attempt ends the retry loop at once, whatever the number of
remaining retries. -/
theorem qbGo_ok (calls : Nat → Except String RawBody) (jitter : Nat → ℚ)
    (base : ℚ) {k i : Nat} {t : String} {u : Json}
    (h : callParse (calls i) = Except.ok (t, u)) :
    qbGo calls jitter base k i = ⟨QBRes.success t u, 1, []⟩ := by
  cases k <;> (conv_lhs => rw [qbGo]) <;> rw [h]

/-- A failed attempt with no retries remaining ends the loop with that
exception. -/
theorem qbGo_zero_err (calls : Nat → Except String RawBody) (jitter : Nat → ℚ)
    (base : ℚ) {i : Nat} {e : String}
    (h : callParse (calls i) = Except.error e) :
    qbGo calls jitter base 0 i = ⟨QBRes.failure e, 1, []⟩ := by
  conv_lhs => rw [qbGo]
  rw [h]

/-- A failed attempt with retries remaining sleeps the backoff plus jitter
and continues with the next attempt. -/
theorem qbGo_succ_err (calls : Nat → Except String RawBody) (jitter : Nat → ℚ)
    (base : ℚ) {k i : Nat} {e : String}
    (h : callParse (calls i) = Except.error e) :
    qbGo calls jitter base (k + 1) i =
      consTr (base * 2 ^ (i - 1) + jitter i) (qbGo calls jitter base k (i + 1)) := by
  conv_lhs => rw [qbGo]
  rw [h]

/-- The retry loop performs at most one more attempt than it has retries. -/
theorem qbGo_attempts_le (calls : Nat → Except String RawBody) (jitter : Nat → ℚ)
    (base : ℚ) : ∀ k i, (qbGo calls jitter base k i).attempts ≤ k + 1 := by
  intro k
  induction k with
  | zero =>
      intro i
      rcases h : callParse (calls i) with e | ⟨t, u⟩
      · rw [qbGo_zero_err calls jitter base h]
      · rw [qbGo_ok calls jitter base h]
  | succ k ih =>
      intro i
      rcases h : callParse (calls i) with e | ⟨t, u⟩
      · rw [qbGo_succ_err calls jitter base h]
        exact Nat.succ_le_succ (ih (i + 1))
      · rw [qbGo_ok calls jitter base h]
        show 1 ≤ k + 1 + 1
        omega

/-- The sleep recorded after the `(i + p)`-th attempt equals the exponential
backoff for that attempt plus its jitter draw. -/
theorem qbGo_sleeps_eq (calls : Nat → Except String RawBody) (jitter : Nat → ℚ)
    (base : ℚ) : ∀ k i p, p < (qbGo calls jitter base k i).sleeps.length →
    (qbGo calls jitter base k i).sleeps.getD p 0 =
      base * 2 ^ (i + p - 1) + jitter (i + p) := by
  intro k
  induction k with
  | zero =>
      intro i p hp
      rcases h : callParse (calls i) with e | ⟨t, u⟩
      · rw [qbGo_zero_err calls jitter base h] at hp
        simp at hp
      · rw [qbGo_ok calls jitter base h] at hp
        simp at hp
  | succ k ih =>
      intro i p hp
      rcases h : callParse (calls i) with e | ⟨t, u⟩
      · rw [qbGo_succ_err calls jitter base h] at hp ⊢
        cases p with
        | zero => simp [consTr]
        | succ q =>
            simp only [consTr, List.length_cons, List.getD_cons_succ] at hp ⊢
            have hq : q < (qbGo calls jitter base k (i + 1)).sleeps.length := by
              omega
            rw [ih (i + 1) q hq]
            have e1 : i + 1 + q - 1 = i + (q + 1) - 1 := by omega
            have e2 : i + 1 + q = i + (q + 1) := by omega
            rw [e1, e2]
      · rw [qbGo_ok calls jitter base h] at hp
        simp at hp

/-- When every attempt the loop can reach fails, the loop ends with the
exception of the last attempt. -/
theorem qbGo_all_fail (calls : Nat → Except String RawBody) (jitter : Nat → ℚ)
    (base : ℚ) (err : Nat → String) :
    ∀ k i, (∀ a, i ≤ a → a ≤ i + k → callParse (calls a) = Except.error (err a)) →
    (qbGo calls jitter base k i).res = QBRes.failure (err (i + k)) := by
  intro k
  induction k with
  | zero =>
      intro i h
      have hi := h i (le_refl i) (by omega)
      rw [qbGo_zero_err calls jitter base hi]
      show QBRes.failure (err i) = QBRes.failure (err (i + 0))
      rw [Nat.add_zero]
  | succ k ih =>
      intro i h
      have hi := h i (le_refl i) (by omega)
      rw [qbGo_succ_err calls jitter base hi]
      simp only [consTr]
      have hr := ih (i + 1) (fun a ha1 ha2 => h a (by omega) (by omega))
      rw [hr]
      have e1 : i + 1 + k = i + (k + 1) := by omega
      rw [e1]

/-- Claim C2: the retry contract of `revised_bedrock.query_bedrock`.  With
`max_retries = m` the loop performs at most `m + 1` call attempts; if the
remote call raises on the first two attempts and succeeds on the third
(within `max_retries = 3`) the result is the success result; the sleep after
failed attempt `p + 1` equals `base_backoff * 2 ^ p` plus that attempt's
jitter draw, so a jitter within 10% of the backoff keeps the sleep between
the backoff and 1.1 times the backoff; and when every attempt fails the
loop ends with the last raised exception's message. -/
theorem query_bedrock_retry_contract (calls : Nat → Except String RawBody)
    (jitter : Nat → ℚ) (base : ℚ) (m : Nat) :
    ((qbRun calls jitter base m).attempts ≤ m + 1)
  ∧ (∀ (e1 e2 : String) (body : RawBody) (t : String) (pj : Json),
        calls 1 = Except.error e1 → calls 2 = Except.error e2 →
        calls 3 = Except.ok body → parse_bedrock_response body = some (t, pj) →
        (qbRun calls jitter base 3).res = QBRes.success t (usageOf pj))
  ∧ (∀ p, p < (qbRun calls jitter base m).sleeps.length →
        (qbRun calls jitter base m).sleeps.getD p 0 = base * 2 ^ p + jitter (p + 1)
        ∧ (0 ≤ jitter (p + 1) → jitter (p + 1) ≤ base * 2 ^ p / 10 →
            base * 2 ^ p ≤ (qbRun calls jitter base m).sleeps.getD p 0
            ∧ (qbRun calls jitter base m).sleeps.getD p 0 ≤
                base * 2 ^ p * (11 / 10)))
  ∧ (∀ err : Nat → String,
        (∀ a, 1 ≤ a → a ≤ m + 1 → calls a = Except.error (err a)) →
        (qbRun calls jitter base m).res = QBRes.failure (err (m + 1))) := by
  refine ⟨qbGo_attempts_le calls jitter base m 1, ?_, ?_, ?_⟩
  · intro e1 e2 body t pj h1 h2 h3 hp
    have c1 : callParse (calls 1) = Except.error e1 := by
      rw [h1]; rfl
    have c2 : callParse (calls 2) = Except.error e2 := by
      rw [h2]; rfl
    have c3 : callParse (calls 3) = Except.ok (t, usageOf pj) := by
      rw [h3]
      simp [callParse, hp]
    show (qbGo calls jitter base (2 + 1) 1).res = QBRes.success t (usageOf pj)
    rw [qbGo_succ_err calls jitter base c1]
    simp only [consTr]
    show (qbGo calls jitter base (1 + 1) 2).res = QBRes.success t (usageOf pj)
    rw [qbGo_succ_err calls jitter base c2]
    simp only [consTr]
    rw [qbGo_ok calls jitter base c3]
  · intro p hp
    simp only [qbRun] at hp ⊢
    have heq := qbGo_sleeps_eq calls jitter base m 1 p hp
    have e1 : 1 + p - 1 = p := by omega
    have e2 : 1 + p = p + 1 := by omega
    rw [e1, e2] at heq
    refine ⟨heq, fun hj1 hj2 => ⟨?_, ?_⟩⟩
    · rw [heq]
      linarith
    · rw [heq]
      linarith
  · intro err h
    have h1 : ∀ a, 1 ≤ a → a ≤ 1 + m → callParse (calls a) = Except.error (err a) := by
      intro a ha1 ha2
      rw [h a ha1 (by omega)]
      rfl
    have hr := qbGo_all_fail calls jitter base err m 1 h1
    show (qbGo calls jitter base m 1).res = QBRes.failure (err (m + 1))
    rw [hr]
    have e1 : 1 + m = m + 1 := by omega
    rw [e1]

/-- Witness for `query_bedrock_retry_contract`: a concrete oracle that
raises on the first two attempts and succeeds on the third yields the
success result, and a concrete always-raising oracle ends with the last
exception's message after `max_retries = 2`. -/
theorem query_bedrock_retry_contract_witness :
    (qbRun
        (fun i => match i with
          | 1 => Except.error "e1"
          | 2 => Except.error "e2"
          | _ => Except.ok (RawBody.parsed "raw"
              (Json.obj [("outputText", Json.str "hello"),
                ("usage", Json.obj [("tokens", Json.num 7)])])))
        (fun _ => 0) (1 / 2) 3).res =
      QBRes.success "hello" (Json.obj [("tokens", Json.num 7)])
  ∧ (qbRun (fun i => Except.error ("x" ++ Nat.repr i)) (fun _ => 0) (1 / 2) 2).res =
      QBRes.failure ("x" ++ Nat.repr 3) :=
  ⟨(query_bedrock_retry_contract
      (fun i => match i with
        | 1 => Except.error "e1"
        | 2 => Except.error "e2"
        | _ => Except.ok (RawBody.parsed "raw"
            (Json.obj [("outputText", Json.str "hello"),
              ("usage", Json.obj [("tokens", Json.num 7)])])))
      (fun _ => 0) (1 / 2) 3).2.1 "e1" "e2"
      (RawBody.parsed "raw" (Json.obj [("outputText", Json.str "hello"),
        ("usage", Json.obj [("tokens", Json.num 7)])]))
      "hello" (Json.obj [("outputText", Json.str "hello"),
        ("usage", Json.obj [("tokens", Json.num 7)])])
      rfl rfl rfl (by decide),
   (query_bedrock_retry_contract (fun i => Except.error ("x" ++ Nat.repr i))
      (fun _ => 0) (1 / 2) 2).2.2.2 (fun i => "x" ++ Nat.repr i)
      (fun a _ _ => rfl)⟩
